import Mathlib

/-!
Verification of the attention-mcp response-formatting layer.

The definitions below are a shallow embedding of the two Python source
files of the repository:

* `src/attention_client.py` — credential resolution in
  `AttentionClient.__init__` (embedded as `initApiKey`);
* `src/server.py` — the pure formatting functions
  `format_search_results`, `format_conversation` and `format_transcript`.

Python dictionaries coming from the API are embedded as typed structures
whose fields are `Option`-valued: `none` models an absent key (Python
`dict.get` returning its default).  Insertion-ordered mappings
(extracted-intelligence blocks) are embedded as association lists.
Python truthiness of a string is emptiness, of a list or mapping it is
being empty; the embedding spells the corresponding test out at each
use site, mirroring the Python condition.

External standard-library helpers used by the source are modelled by
structurally recursive Lean functions so that every definition is
executable by the kernel:

* `pyStrip` models `str.strip()` (both-ends whitespace removal);
* `replaceZ` models `created.replace("Z", "+00:00")` — a
  single-character pattern, so a per-character map is exact;
* `fromisoformat` models `datetime.datetime.fromisoformat` in the
  strict form accepted by CPython 3.7-3.10: a `YYYY-MM-DD` date,
  optionally followed by one arbitrary separator character and a time
  `HH[:MM[:SS[.fff or .ffffff]]]` with an optional UTC offset
  `±HH:MM[:SS]`; field ranges are validated, including the day of
  month with leap years;
* `strftimeYmdHM` models `dt.strftime("%Y-%m-%d %H:%M")` on the parsed
  wall-clock fields (zero padded).
-/

namespace AttentionMCP

/-- Whitespace test used by `pyStrip`, matching the character class that
Python `str.strip()` removes by default. -/
def pyIsSpace (c : Char) : Bool :=
  c = ' ' || c = '\t' || c = '\n' || c = '\r' || c = '\x0b' || c = '\x0c'

/-- Drops leading whitespace characters from a character list. -/
def dropLeading : List Char → List Char
  | [] => []
  | c :: cs => if pyIsSpace c then dropLeading cs else c :: cs

/-- Model of Python `str.strip()`: removes whitespace from both ends. -/
def pyStrip (s : String) : String :=
  String.mk ((dropLeading ((dropLeading s.data).reverse)).reverse)

/-- Model of `s.replace("Z", "+00:00")` from `server.py` (the pattern is
a single character, so a per-character expansion is exact). -/
def replaceZ (s : String) : String :=
  String.mk (s.data.flatMap (fun c => if c = 'Z' then "+00:00".data else [c]))

/-- Numeric value of a decimal digit character, `none` on a non-digit. -/
def digitVal (c : Char) : Option Nat :=
  if c.isDigit then some (c.toNat - 48) else none

/-- Reads exactly two decimal digits. -/
def parse2 : List Char → Option (Nat × List Char)
  | a :: b :: rest =>
    match digitVal a, digitVal b with
    | some x, some y => some (10 * x + y, rest)
    | _, _ => none
  | _ => none

/-- Reads exactly four decimal digits. -/
def parse4 : List Char → Option (Nat × List Char)
  | a :: b :: c :: d :: rest =>
    match digitVal a, digitVal b, digitVal c, digitVal d with
    | some x, some y, some z, some w => some (1000 * x + 100 * y + 10 * z + w, rest)
    | _, _, _, _ => none
  | _ => none

/-- Consumes one expected character. -/
def expectChar (c : Char) : List Char → Option (List Char)
  | x :: rest => if x = c then some rest else none
  | [] => none

/-- Splits off the maximal leading run of decimal digits. -/
def takeDigits : List Char → (List Char × List Char)
  | [] => ([], [])
  | c :: rest =>
    if c.isDigit then
      let p := takeDigits rest
      (c :: p.1, p.2)
    else ([], c :: rest)

/-- Gregorian leap-year rule, as used by Python `datetime`. -/
def isLeapYear (y : Nat) : Bool :=
  y % 4 == 0 && (y % 100 != 0 || y % 400 == 0)

/-- Number of days in a month, as validated by Python `datetime`. -/
def daysInMonth (y m : Nat) : Nat :=
  if m = 2 then (if isLeapYear y then 29 else 28)
  else if m = 4 ∨ m = 6 ∨ m = 9 ∨ m = 11 then 30
  else 31

/-- Wall-clock fields of a parsed Python `datetime` (the offset is
validated during parsing but not stored: `strftime` renders wall time). -/
structure PyDateTime where
  year : Nat
  month : Nat
  day : Nat
  hour : Nat
  minute : Nat
  second : Nat
deriving DecidableEq

/-- Validates an optional trailing UTC offset of the form
`±HH:MM[:SS]`; succeeds on the empty remainder. -/
def parseOffset (l : List Char) : Option Unit :=
  match l with
  | [] => some ()
  | sign :: rest =>
    if sign = '+' ∨ sign = '-' then
      match parse2 rest with
      | some (oh, r1) =>
        match expectChar ':' r1 with
        | some r2 =>
          match parse2 r2 with
          | some (om, r3) =>
            if oh ≤ 23 ∧ om ≤ 59 then
              match r3 with
              | [] => some ()
              | ':' :: r4 =>
                match parse2 r4 with
                | some (os, r5) => if os ≤ 59 ∧ r5 = [] then some () else none
                | none => none
              | _ => none
            else none
          | none => none
        | none => none
      | none => none
    else none

/-- Parses the time-of-day portion `HH[:MM[:SS[.fff or .ffffff]]]`
followed by an optional offset, with range validation. -/
def parseTime (l : List Char) : Option (Nat × Nat × Nat) :=
  match parse2 l with
  | none => none
  | some (h, r1) =>
    if 24 ≤ h then none else
    match r1 with
    | ':' :: r2 =>
      match parse2 r2 with
      | none => none
      | some (m, r3) =>
        if 60 ≤ m then none else
        match r3 with
        | ':' :: r4 =>
          match parse2 r4 with
          | none => none
          | some (s, r5) =>
            if 60 ≤ s then none else
            match r5 with
            | '.' :: r6 =>
              let p := takeDigits r6
              if p.1.length = 3 ∨ p.1.length = 6 then
                match parseOffset p.2 with
                | some _ => some (h, m, s)
                | none => none
              else none
            | _ =>
              match parseOffset r5 with
              | some _ => some (h, m, s)
              | none => none
        | _ =>
          match parseOffset r3 with
          | some _ => some (h, m, 0)
          | none => none
    | _ =>
      match parseOffset r1 with
      | some _ => some (h, 0, 0)
      | none => none

/-- Model of `datetime.fromisoformat` (strict CPython 3.7-3.10 form):
a valid `YYYY-MM-DD` date, optionally followed by a single arbitrary
separator character and a time portion. -/
def fromisoformat (s : String) : Option PyDateTime :=
  match parse4 s.data with
  | none => none
  | some (y, r1) =>
    match expectChar '-' r1 with
    | none => none
    | some r2 =>
      match parse2 r2 with
      | none => none
      | some (mo, r3) =>
        match expectChar '-' r3 with
        | none => none
        | some r4 =>
          match parse2 r4 with
          | none => none
          | some (d, r5) =>
            if 1 ≤ y ∧ 1 ≤ mo ∧ mo ≤ 12 ∧ 1 ≤ d ∧ d ≤ daysInMonth y mo then
              match r5 with
              | [] => some ⟨y, mo, d, 0, 0, 0⟩
              | _sep :: rest =>
                match parseTime rest with
                | some (h, mi, sec) => some ⟨y, mo, d, h, mi, sec⟩
                | none => none
            else none

/-- Zero-pads a number to two digits, as `strftime` does. -/
def pad2 (n : Nat) : String :=
  if n < 10 then "0" ++ toString n else toString n

/-- Zero-pads a year to four digits, as `strftime` renders `%Y`. -/
def pad4 (n : Nat) : String :=
  if n < 10 then "000" ++ toString n
  else if n < 100 then "00" ++ toString n
  else if n < 1000 then "0" ++ toString n
  else toString n

/-- Model of `dt.strftime("%Y-%m-%d %H:%M")`. -/
def strftimeYmdHM (dt : PyDateTime) : String :=
  pad4 dt.year ++ "-" ++ pad2 dt.month ++ "-" ++ pad2 dt.day ++ " " ++
    pad2 dt.hour ++ ":" ++ pad2 dt.minute

/-- Embedding of the shared date-normalisation block of
`format_search_results` (server.py lines 173-179) and
`format_conversation` (lines 214-220): when `created` is non-empty,
try to parse it after replacing `Z` with an explicit UTC offset and
render `YYYY-MM-DD HH:MM`; on failure keep the original string. -/
def formatDate (created : String) : String :=
  if created = "" then created
  else
    match fromisoformat (replaceZ created) with
    | some dt => strftimeYmdHM dt
    | none => created

/-- Participant (or speaker) object: a mapping with optional `name` and
`email` keys. -/
structure Participant where
  name : Option String
  email : Option String
deriving DecidableEq

/-- Embedding of the display-name chain
`p.get("name") or p.get("email", "Unknown")` used at server.py lines
183, 226 and 295: a present non-empty name wins, otherwise the email
value when the key is present, otherwise the literal `Unknown`. -/
def displayName (p : Participant) : String :=
  match p.name with
  | some n => if n = "" then p.email.getD "Unknown" else n
  | none => p.email.getD "Unknown"

/-- Word token of a transcript segment, with optional `text` key. -/
structure Word where
  text : Option String
deriving DecidableEq

/-- Transcript segment of the list-shaped transcript: optional
`speaker` object and optional `words` list. -/
structure Segment where
  speaker : Option Participant
  words : Option (List Word)
deriving DecidableEq

/-- Segment of the dictionary-shaped transcript (the `segments` key),
whose `speaker` is a plain string. -/
structure SimpleSeg where
  speaker : Option String
  text : Option String
deriving DecidableEq

/-- Dictionary-shaped transcript, modelled by its two recognised keys.
A dictionary with neither key is the empty (falsy) dictionary; the
`json.dumps` fallback for unrecognised non-empty dictionaries is
outside the model since no recognised-key dictionary reaches it. -/
structure TDict where
  text : Option String
  segments : Option (List SimpleSeg)
deriving DecidableEq

/-- Polymorphic transcript value handled by `format_transcript`. -/
inductive Transcript where
  | str (s : String)
  | list (segs : List Segment)
  | dict (d : TDict)
deriving DecidableEq

/-- Python truthiness test `if not transcript:` at server.py line 280:
the empty string, the empty list and the empty dictionary are falsy. -/
def Transcript.falsy : Transcript → Bool
  | .str s => s == ""
  | .list segs => segs.isEmpty
  | .dict d => d.text == none && d.segments == none

/-- Resolved speaker display name of a segment (server.py lines
294-295): `segment.get("speaker", {})` then the name/email chain. -/
def segSpeakerName (seg : Segment) : String :=
  displayName (seg.speaker.getD ⟨none, none⟩)

/-- Text of a segment (server.py lines 298-299): concatenation of the
word texts, then stripped. -/
def segText (seg : Segment) : String :=
  pyStrip (String.join (((seg.words.getD []).map (fun w => w.text.getD ""))))

/-- Loop state of the segment-grouping loop of `format_transcript`:
accumulated output lines, the current speaker (`none` models the
Python initial `None`) and the pending segment texts. -/
structure TState where
  lines : List String
  cur : Option String
  texts : List String
deriving DecidableEq

/-- Embedding of the flush step
`if current_speaker and current_text: lines.append(...)` (server.py
lines 309-310 and 315-316): the pending turn is appended only when the
current speaker is a truthy string and there is pending text. -/
def flushState (st : TState) : List String :=
  if st.cur.getD "" ≠ "" ∧ st.texts ≠ [] then
    st.lines ++ ["**" ++ st.cur.getD "" ++ ":** " ++ " ".intercalate st.texts]
  else st.lines

/-- One iteration of the segment loop (server.py lines 293-312):
empty-text segments are skipped, a repeated speaker extends the pending
turn, a new speaker flushes the pending turn and starts a fresh one. -/
def segStep (st : TState) (seg : Segment) : TState :=
  if segText seg = "" then st
  else if some (segSpeakerName seg) = st.cur then
    { st with texts := st.texts ++ [segText seg] }
  else
    { lines := flushState st, cur := some (segSpeakerName seg), texts := [segText seg] }

/-- Embedding of the list branch of `format_transcript` (server.py
lines 288-318). -/
def formatSegs (segs : List Segment) : String :=
  if flushState (segs.foldl segStep ⟨[], none, []⟩) = [] then "*No transcript available*"
  else "\n\n".intercalate (flushState (segs.foldl segStep ⟨[], none, []⟩))

/-- Embedding of `format_transcript` (server.py lines 278-336). -/
def formatTranscript (t : Transcript) : String :=
  if t.falsy then "*No transcript available*"
  else
    match t with
    | .str s => s
    | .list segs => formatSegs segs
    | .dict d =>
      match d.text with
      | some txt => txt
      | none =>
        match d.segments with
        | some segs =>
          "\n\n".intercalate
            (segs.map (fun sg => "**" ++ sg.speaker.getD "Unknown" ++ ":** " ++ sg.text.getD ""))
        | none => "*No transcript available*"

/-- Extracted-intelligence entry value: either a structured block
(a dictionary with optional `title` and `value` keys) or a bare scalar
rendered through its string form. -/
inductive IntelItem where
  | block (title : Option String) (value : Option String)
  | scalar (s : String)
deriving DecidableEq

/-- Embedding of the intelligence-rendering loop (server.py lines
240-251): a structured block with a non-empty `value` yields a
sub-heading (its `title` or the key) plus the value and a blank line;
a truthy scalar yields an inline bullet; everything else is skipped. -/
def intelLines (intel : List (String × IntelItem)) : List String :=
  intel.flatMap (fun kv =>
    match kv.2 with
    | .block title value =>
      if value.getD "" = "" then []
      else ["### " ++ title.getD kv.1, value.getD "", ""]
    | .scalar s => if s = "" then [] else ["  - " ++ kv.1 ++ ": " ++ s])

/-- Attributes dictionary of a conversation, modelled by the keys the
formatters read.  `none` models an absent key. -/
structure Attrs where
  uuid : Option String
  title : Option String
  createdAt : Option String
  participants : Option (List Participant)
  transcript : Option Transcript
  confirmedExtractedIntelligence : Option (List (String × IntelItem))
  extractedIntelligence : Option (List (String × IntelItem))
  videoStatus : Option String
deriving DecidableEq

/-- The empty attributes dictionary. -/
def emptyAttrs : Attrs := ⟨none, none, none, none, none, none, none, none⟩

/-- Embedding of the intelligence-source choice at server.py line 239:
the confirmed mapping when non-empty, else the raw mapping. -/
def chosenIntel (attrs : Attrs) : List (String × IntelItem) :=
  if attrs.confirmedExtractedIntelligence.getD [] = [] then
    attrs.extractedIntelligence.getD []
  else attrs.confirmedExtractedIntelligence.getD []

/-- Embedding of the participants line truncation of
`format_search_results` (server.py lines 182-186): first three display
names joined by a comma, with a more-suffix when over three. -/
def participantStr (ps : List Participant) : String :=
  let names := (ps.take 3).map displayName
  let s := ", ".intercalate names
  if ps.length > 3 then s ++ " (+" ++ toString (ps.length - 3) ++ " more)"
  else s

/-- Per-participant line of the detail formatter (server.py lines
225-231): name with the email in parentheses when the email is truthy
and differs from the name. -/
def participantLine (p : Participant) : String :=
  if p.email.getD "" ≠ "" ∧ displayName p ≠ p.email.getD "" then
    "  - " ++ displayName p ++ " (" ++ p.email.getD "" ++ ")"
  else "  - " ++ displayName p

/-- Pagination metadata dictionary of a search result. -/
structure MetaInfo where
  totalRecords : Option Nat
  pageNumber : Option Nat
  pageCount : Option Nat
deriving DecidableEq

/-- One conversation object of a search-result page. -/
structure ConvSummary where
  id : Option String
  attributes : Option Attrs
deriving DecidableEq

/-- Search-result payload handled by `format_search_results`. -/
structure SearchResult where
  data : Option (List ConvSummary)
  meta : Option MetaInfo
deriving DecidableEq

/-- Lines appended for one conversation of the search-result loop
(server.py lines 167-192), including the ID fallback chain
`conv.get("id", attrs.get("uuid", "unknown"))` of line 169. -/
def summaryBlock (conv : ConvSummary) : List String :=
  let attrs := conv.attributes.getD emptyAttrs
  ["- **" ++ attrs.title.getD "Untitled" ++ "**",
   "  ID: " ++ conv.id.getD (attrs.uuid.getD "unknown"),
   "  Date: " ++ formatDate (attrs.createdAt.getD ""),
   "  Participants: " ++ participantStr (attrs.participants.getD []),
   ""]

/-- Line list built by `format_search_results` in the non-empty case
(server.py lines 165-196): header, one block per conversation, and a
pagination footer when `meta.pageCount` exceeds one. -/
def formatSearchResultsLines (result : SearchResult) : List String :=
  let data := result.data.getD []
  let meta := result.meta.getD ⟨none, none, none⟩
  let lines :=
    ("Found " ++ toString (meta.totalRecords.getD data.length) ++ " conversations:\n")
      :: data.flatMap summaryBlock
  if meta.pageCount.getD 1 > 1 then
    lines ++
      ["\nPage " ++ toString (meta.pageNumber.getD 1) ++ " of " ++
        toString (meta.pageCount.getD 1)]
  else lines

/-- Embedding of `format_search_results` (server.py lines 157-198). -/
def formatSearchResults (result : SearchResult) : String :=
  if (result.data.getD []).isEmpty then "No conversations found."
  else "\n".intercalate (formatSearchResultsLines result)

/-- Optional nested wrapper `result["data"]` probed by the detail
formatter. -/
structure DataWrapper where
  attributes : Option Attrs
deriving DecidableEq

/-- Payload handed to `format_conversation`. -/
structure ConvResult where
  id : Option String
  attributes : Option Attrs
  data : Option DataWrapper
deriving DecidableEq

/-- Attribute resolution of `format_conversation` (server.py lines
204-208): top-level `attributes` first, falling back to the nested
`data.attributes` when the top-level dictionary is empty or absent. -/
def detailAttrs (result : ConvResult) : Attrs :=
  let attrs := result.attributes.getD emptyAttrs
  if attrs = emptyAttrs then (result.data.getD ⟨none⟩).attributes.getD emptyAttrs
  else attrs

/-- Line list built by `format_conversation` (server.py lines 201-273),
including the ID chain `attrs.get("uuid", result.get("id", "unknown"))`
of line 210 and the intelligence section emitted only when the
rendered intelligence line list is non-empty (line 265). -/
def formatConversationLines (result : ConvResult) : List String :=
  let attrs := detailAttrs result
  let intel := intelLines (chosenIntel attrs)
  ["# " ++ attrs.title.getD "Untitled",
   "",
   "**ID:** " ++ attrs.uuid.getD (result.id.getD "unknown"),
   "**Date:** " ++ formatDate (attrs.createdAt.getD ""),
   "**Video Status:** " ++ attrs.videoStatus.getD "Unknown",
   "",
   "## Participants"]
  ++ (attrs.participants.getD []).map participantLine
  ++ (if intel = [] then [] else ["", "## Extracted Intelligence"] ++ intel)
  ++ ["", "## Transcript", "", formatTranscript (attrs.transcript.getD (.dict ⟨none, none⟩))]

/-- Embedding of `format_conversation` (server.py lines 201-275). -/
def formatConversation (result : ConvResult) : String :=
  "\n".intercalate (formatConversationLines result)

/-- Embedding of the credential resolution of
`AttentionClient.__init__` (attention_client.py lines 26-28):
`api_key or os.environ.get("ATTENTION_API_KEY")` followed by the
truthiness check that raises `ValueError`.  The result is returned
before any HTTP state is built, so a configuration error precludes any
network activity. -/
def initApiKey (apiKey envKey : Option String) : Except String String :=
  let resolved : Option String :=
    match apiKey with
    | some s => if s = "" then envKey else some s
    | none => envKey
  match resolved with
  | some s =>
    if s = "" then .error "ATTENTION_API_KEY must be set" else .ok s
  | none => .error "ATTENTION_API_KEY must be set"

/-- The fallback chain the specification asserts for the detail
formatter, stated from the specification text for comparison with the
code: top-level id, else attributes uuid, else the literal unknown. -/
def claimDetailId (result : ConvResult) : String :=
  result.id.getD ((detailAttrs result).uuid.getD "unknown")

/-- Builder for list-shaped transcript segments used in concrete
instances: a named speaker and one word per given text. -/
def mkSeg (name : String) (ws : List String) : Segment :=
  ⟨some ⟨some name, none⟩, some (ws.map (fun t => ⟨some t⟩))⟩

/-- Segment whose word text is whitespace only, so its stripped text is
empty. -/
def blankSeg : Segment := mkSeg "A" ["   "]

/-- Segment with non-empty text whose speaker object has an empty
`email` and no `name`, so its resolved display name is the empty
string. -/
def emptyNameSeg : Segment := ⟨some ⟨none, some ""⟩, some [⟨some "secret"⟩]⟩

/-- String concatenation is associative (component lists append
associatively). -/
theorem strAppendAssoc (a b c : String) : a ++ b ++ c = a ++ (b ++ c) := by
  cases a with
  | mk la =>
    cases b with
    | mk lb =>
      cases c with
      | mk lc =>
        show String.mk (la ++ lb ++ lc) = String.mk (la ++ (lb ++ lc))
        rw [List.append_assoc]

/-- The list branch of `format_transcript` and `formatSegs` agree on
every segment list: the empty list is falsy and yields the placeholder
in both. -/
theorem formatTranscript_list (segs : List Segment) :
    formatTranscript (.list segs) = formatSegs segs := by
  cases segs with
  | nil => rfl
  | cons a as => rfl

/-- A segment whose stripped text is empty leaves the loop state
untouched. -/
theorem segStep_of_empty {seg : Segment} (st : TState) (h : segText seg = "") :
    segStep st seg = st := by
  unfold segStep
  rw [if_pos h]

/-- Folding the loop over a run of empty-text segments is the
identity on the loop state. -/
theorem foldl_segStep_skip (mid : List Segment) (st : TState)
    (h : ∀ s ∈ mid, segText s = "") : mid.foldl segStep st = st := by
  induction mid generalizing st with
  | nil => rfl
  | cons a as ih =>
    rw [List.foldl_cons, segStep_of_empty st (h a (List.mem_cons_self a as)),
      ih st (fun s hs => h s (List.mem_cons_of_mem a hs))]

/-- C2 counterexample: the claim asserts the transcript formatter
returns every string input unchanged, including the empty string, but
the empty string is falsy and yields the placeholder instead. -/
theorem c2_counterexample :
    formatTranscript (.str "") = "*No transcript available*" ∧
    formatTranscript (.str "") ≠ "" := by decide

/-- C2 (amended): the transcript formatter returns every non-empty
string input unchanged; the empty string yields the placeholder
because of the leading falsiness check. -/
theorem c2_flat_string (s : String) (h : s ≠ "") :
    formatTranscript (.str s) = s := by
  unfold formatTranscript Transcript.falsy
  simp [h]

/-- C2 witness: the amended statement at the concrete input hello. -/
theorem c2_flat_string_witness :
    ("hello" : String) ≠ "" ∧ formatTranscript (.str "hello") = "hello" :=
  ⟨by decide, c2_flat_string "hello" (by decide)⟩

/-- C3: segments whose concatenated-and-stripped word text is empty
are skipped entirely and do not reset speaker grouping — removing any
run of such segments from a transcript leaves the formatted output
unchanged, so same-speaker segments separated only by empty segments
still coalesce into one turn. -/
theorem c3_empty_segments_skipped (pre mid post : List Segment)
    (h : ∀ s ∈ mid, segText s = "") :
    formatTranscript (.list (pre ++ mid ++ post)) =
      formatTranscript (.list (pre ++ post)) := by
  rw [formatTranscript_list, formatTranscript_list]
  unfold formatSegs
  rw [List.foldl_append, List.foldl_append, List.foldl_append,
    foldl_segStep_skip mid _ h]

/-- C3 witness: a whitespace-only segment between two same-speaker
segments is dropped, and the coalesced result is one single turn. -/
theorem c3_empty_segments_skipped_witness :
    (∀ s ∈ [blankSeg], segText s = "") ∧
    formatTranscript (.list [mkSeg "A" ["Hi"], blankSeg, mkSeg "A" ["there"]]) =
      formatTranscript (.list [mkSeg "A" ["Hi"], mkSeg "A" ["there"]]) ∧
    formatTranscript (.list [mkSeg "A" ["Hi"], mkSeg "A" ["there"]]) = "**A:** Hi there" :=
  ⟨by decide,
   c3_empty_segments_skipped [mkSeg "A" ["Hi"]] [blankSeg] [mkSeg "A" ["there"]] (by decide),
   by decide⟩

/-- C8: a search result whose data list is empty (or absent) is
formatted as exactly the terminal string, with no header, date,
participant or footer rendering. -/
theorem c8_empty_data (result : SearchResult) (h : result.data.getD [] = []) :
    formatSearchResults result = "No conversations found." := by
  unfold formatSearchResults
  rw [h]
  rfl

/-- C8 witness: the empty-data statement at a concrete search result. -/
theorem c8_empty_data_witness :
    (({ data := some [], meta := none } : SearchResult).data.getD [] = []) ∧
    formatSearchResults { data := some [], meta := none } = "No conversations found." :=
  ⟨rfl, c8_empty_data { data := some [], meta := none } rfl⟩

/-- The grouping loop keeps an empty line list and a falsy current
speaker as long as every segment resolves to the empty speaker name. -/
theorem foldl_segStep_empty_names (segs : List Segment) (st : TState)
    (hst : st.lines = [] ∧ st.cur.getD "" = "")
    (h : ∀ s ∈ segs, segSpeakerName s = "") :
    (segs.foldl segStep st).lines = [] ∧ (segs.foldl segStep st).cur.getD "" = "" := by
  induction segs generalizing st with
  | nil => exact hst
  | cons a as ih =>
    rw [List.foldl_cons]
    apply ih
    · unfold segStep
      split
      · exact hst
      · split
        · exact hst
        · refine ⟨?_, ?_⟩
          · unfold flushState
            rw [if_neg]
            · exact hst.1
            · intro hc
              exact hc.1 hst.2
          · have hn := h a (List.mem_cons_self a as)
            simp [hn]
    · exact fun s hs => h s (List.mem_cons_of_mem a hs)

/-- C10: text of a segment whose resolved speaker display name is the
empty string is silently omitted — a turn is only emitted for a truthy
speaker name, so when every segment resolves to an empty name the
placeholder is returned; and concretely, a non-empty text attached to
an empty-name speaker (empty email, no name) appears in no turn even
between two turns of a named speaker. -/
theorem c10_empty_speaker_name (segs : List Segment) :
    ((∀ s ∈ segs, segSpeakerName s = "") →
      formatTranscript (.list segs) = "*No transcript available*") ∧
    formatTranscript (.list [mkSeg "A" ["x"], emptyNameSeg, mkSeg "A" ["z"]]) =
      "**A:** x\n\n**A:** z" := by
  constructor
  · intro h
    rw [formatTranscript_list]
    unfold formatSegs
    have hinv := foldl_segStep_empty_names segs ⟨[], none, []⟩ ⟨rfl, rfl⟩ h
    have hfl : flushState (segs.foldl segStep ⟨[], none, []⟩) = [] := by
      unfold flushState
      rw [if_neg]
      · exact hinv.1
      · intro hc
        exact hc.1 hinv.2
    rw [hfl]
    rfl
  · decide

/-- C10 witness: a single segment with non-empty text but an
empty-string speaker name yields the placeholder. -/
theorem c10_empty_speaker_name_witness :
    (∀ s ∈ [emptyNameSeg], segSpeakerName s = "") ∧
    formatTranscript (.list [emptyNameSeg]) = "*No transcript available*" :=
  ⟨by decide, (c10_empty_speaker_name [emptyNameSeg]).1 (by decide)⟩

/-- Text of a one-word segment built by `mkSeg` is the stripped word
text. -/
theorem segText_mkSeg (n t : String) : segText (mkSeg n [t]) = pyStrip t := rfl

/-- Resolved speaker name of a segment built by `mkSeg` is the given
name when that name is non-empty. -/
theorem segSpeakerName_mkSeg (n : String) (ws : List String) (h : n ≠ "") :
    segSpeakerName (mkSeg n ws) = n := by
  unfold segSpeakerName mkSeg displayName
  simp [h]

/-- C4: segment text is the concatenation of the word texts, stripped;
consecutive non-empty segments of the same resolved speaker are joined
into one turn with single spaces, each turn rendered as a bold speaker
label followed by the joined text, turns separated by a blank line —
so two same-speaker segments followed by a second speaker yield
exactly two turns. -/
theorem c4_turn_grouping (na nb t1 t2 t3 : String)
    (hna : na ≠ "") (hnb : nb ≠ "") (hne : na ≠ nb)
    (h1 : pyStrip t1 = t1) (h2 : pyStrip t2 = t2) (h3 : pyStrip t3 = t3)
    (h1n : t1 ≠ "") (h2n : t2 ≠ "") (h3n : t3 ≠ "") :
    formatTranscript (.list [mkSeg na [t1], mkSeg na [t2], mkSeg nb [t3]]) =
      "**" ++ na ++ ":** " ++ t1 ++ " " ++ t2 ++ "\n\n" ++ "**" ++ nb ++ ":** " ++ t3 := by
  have e1 : segStep ⟨[], none, []⟩ (mkSeg na [t1]) = ⟨[], some na, [t1]⟩ := by
    simp [segStep, segText_mkSeg, h1, h1n, segSpeakerName_mkSeg na [t1] hna, flushState]
  have e2 : segStep ⟨[], some na, [t1]⟩ (mkSeg na [t2]) = ⟨[], some na, [t1, t2]⟩ := by
    simp [segStep, segText_mkSeg, h2, h2n, segSpeakerName_mkSeg na [t2] hna]
  have e3 : segStep ⟨[], some na, [t1, t2]⟩ (mkSeg nb [t3]) =
      ⟨["**" ++ na ++ ":** " ++ " ".intercalate [t1, t2]], some nb, [t3]⟩ := by
    simp [segStep, segText_mkSeg, h3, h3n, segSpeakerName_mkSeg nb [t3] hnb,
      flushState, hna, Ne.symm hne]
  rw [formatTranscript_list]
  unfold formatSegs
  simp only [List.foldl_cons, List.foldl_nil]
  rw [e1, e2, e3]
  simp [flushState, hnb, String.intercalate, String.intercalate.go, strAppendAssoc]
  rw [← strAppendAssoc "\n\n" "**"]
  rfl

/-- C4 witness: the three-segment example from the specification
yields exactly the two expected turns. -/
theorem c4_turn_grouping_witness :
    formatTranscript (.list [mkSeg "A" ["Hi"], mkSeg "A" ["there"], mkSeg "B" ["Hello"]]) =
      "**A:** Hi there\n\n**B:** Hello" := by
  rw [c4_turn_grouping "A" "B" "Hi" "there" "Hello" (by decide) (by decide) (by decide)
    (by decide) (by decide) (by decide) (by decide) (by decide) (by decide)]
  rfl

/-- C5: the rendered participants line of the list formatter shows the
display names of the first three participants in input order; with
more than three participants the suffix reporting the remaining count
is appended, and with three or fewer the line is exactly the joined
display names with no suffix. -/
theorem c5_participant_truncation (ps : List Participant) :
    (3 < ps.length →
      ((ps.take 3).map displayName).length = 3 ∧
      participantStr ps =
        ", ".intercalate ((ps.take 3).map displayName) ++
          " (+" ++ toString (ps.length - 3) ++ " more)") ∧
    (ps.length ≤ 3 →
      participantStr ps = ", ".intercalate (ps.map displayName)) := by
  constructor
  · intro h
    constructor
    · simp [List.length_take]
      omega
    · unfold participantStr
      rw [if_pos h]
  · intro h
    unfold participantStr
    rw [if_neg (by omega), List.take_of_length_le h]

/-- C5 witness: the truncation statement at a four-participant list
and the no-suffix statement at a two-participant list. -/
theorem c5_participant_truncation_witness :
    (3 < ([⟨some "P", none⟩, ⟨some "Q", none⟩, ⟨some "R", none⟩,
          ⟨some "S", none⟩] : List Participant).length ∧
      participantStr [⟨some "P", none⟩, ⟨some "Q", none⟩, ⟨some "R", none⟩, ⟨some "S", none⟩] =
        ", ".intercalate (([⟨some "P", none⟩, ⟨some "Q", none⟩, ⟨some "R", none⟩,
            ⟨some "S", none⟩] : List Participant).take 3 |>.map displayName) ++
          " (+" ++ toString (([⟨some "P", none⟩, ⟨some "Q", none⟩, ⟨some "R", none⟩,
            ⟨some "S", none⟩] : List Participant).length - 3) ++ " more)") ∧
    (([⟨some "P", none⟩, ⟨some "Q", none⟩] : List Participant).length ≤ 3 ∧
      participantStr [⟨some "P", none⟩, ⟨some "Q", none⟩] =
        ", ".intercalate (([⟨some "P", none⟩, ⟨some "Q", none⟩] : List Participant).map
          displayName)) :=
  ⟨⟨by decide,
    ((c5_participant_truncation [⟨some "P", none⟩, ⟨some "Q", none⟩, ⟨some "R", none⟩,
      ⟨some "S", none⟩]).1 (by decide)).2⟩,
   ⟨by decide,
    (c5_participant_truncation [⟨some "P", none⟩, ⟨some "Q", none⟩]).2 (by decide)⟩⟩

/-- C6: the date formatter never raises (it is a total function); when
the input, after the Z replacement, parses as an ISO-8601 timestamp it
is rendered as the zero-padded year-month-day hour-minute form, and on
any parse failure or on absence the original string passes through
unchanged — illustrated on a parsing timestamp with a trailing Z, an
unparseable string, and the empty string. -/
theorem c6_date_formatting :
    (∀ s : String, formatDate s =
      match fromisoformat (replaceZ s) with
      | some dt => strftimeYmdHM dt
      | none => s) ∧
    formatDate "2024-03-05T14:30:00Z" = "2024-03-05 14:30" ∧
    formatDate "not-a-date" = "not-a-date" ∧
    formatDate "" = "" := by
  refine ⟨fun s => ?_, by decide, by decide, rfl⟩
  by_cases h : s = ""
  · subst h
    rfl
  · unfold formatDate
    rw [if_neg h]

/-- C9: when neither an explicit api key nor an environment secret
holds a truthy value, client construction fails with the configuration
error before any client state exists; when either holds a non-empty
value, construction resolves a key and raises no such error. -/
theorem c9_credential_check (a e : Option String) :
    ((a.getD "" = "" ∧ e.getD "" = "") →
      initApiKey a e = .error "ATTENTION_API_KEY must be set") ∧
    ((a.getD "" ≠ "" ∨ e.getD "" ≠ "") → ∃ k, initApiKey a e = .ok k) := by
  constructor
  · rintro ⟨ha, he⟩
    unfold initApiKey
    cases a with
    | none =>
      cases e with
      | none => rfl
      | some es =>
        simp only [Option.getD_some] at he
        simp [he]
    | some as =>
      simp only [Option.getD_some] at ha
      cases e with
      | none => simp [ha]
      | some es =>
        simp only [Option.getD_some] at he
        simp [ha, he]
  · intro h
    unfold initApiKey
    cases a with
    | none =>
      cases e with
      | none => simp at h
      | some es =>
        rcases h with h | h
        · simp at h
        · simp only [Option.getD_some] at h
          exact ⟨es, by simp [h]⟩
    | some as =>
      by_cases has : as = ""
      · subst has
        cases e with
        | none =>
          rcases h with h | h <;> simp at h
        | some es =>
          rcases h with h | h
          · simp at h
          · simp only [Option.getD_some] at h
            exact ⟨es, by simp [h]⟩
      · exact ⟨as, by simp [has]⟩

/-- C9 witness: no credential at all yields the configuration error;
an explicit non-empty key yields a successful construction. -/
theorem c9_credential_check_witness :
    (((none : Option String).getD "" = "" ∧ (none : Option String).getD "" = "") ∧
      initApiKey none none = .error "ATTENTION_API_KEY must be set") ∧
    (((some "api-key-123" : Option String).getD "" ≠ "" ∨
        (none : Option String).getD "" ≠ "") ∧
      ∃ k, initApiKey (some "api-key-123") none = .ok k) :=
  ⟨⟨⟨rfl, rfl⟩, (c9_credential_check none none).1 ⟨rfl, rfl⟩⟩,
   ⟨Or.inl (by decide), (c9_credential_check (some "api-key-123") none).2 (Or.inl (by decide))⟩⟩

/-- Concrete detail payload carrying both a top-level id and an
attributes uuid, on which the two fallback chains disagree. -/
def exC1 : ConvResult :=
  { id := some "X", attributes := some { emptyAttrs with uuid := some "Y" }, data := none }

/-- C1 counterexample: on a payload with top-level id X and attributes
uuid Y, the chain the claim asserts (the list formatter chain) yields
X, but the detail formatter renders the ID line with Y — the detail
formatter consults the uuid first, not the top-level id. -/
theorem c1_counterexample :
    claimDetailId exC1 = "X" ∧
    ("**ID:** Y") ∈ formatConversationLines exC1 ∧
    ("**ID:** X") ∉ formatConversationLines exC1 := by decide

/-- C1 (amended): the detail formatter renders the ID through the
chain attributes uuid, else top-level id, else the literal unknown —
the reverse order of the list formatter, which renders, for every
conversation of the data list, top-level id, else attributes uuid,
else the literal unknown. -/
theorem c1_id_chains :
    (∀ r : ConvResult,
      "**ID:** " ++ ((detailAttrs r).uuid.getD (r.id.getD "unknown")) ∈
        formatConversationLines r) ∧
    (∀ (res : SearchResult) (conv : ConvSummary), conv ∈ res.data.getD [] →
      "  ID: " ++ (conv.id.getD ((conv.attributes.getD emptyAttrs).uuid.getD "unknown")) ∈
        formatSearchResultsLines res) := by
  constructor
  · intro r
    simp [formatConversationLines]
  · intro res conv hconv
    have hmem : "  ID: " ++ (conv.id.getD ((conv.attributes.getD emptyAttrs).uuid.getD "unknown"))
        ∈ summaryBlock conv := by
      simp [summaryBlock]
    have hm2 := List.mem_flatMap.mpr ⟨conv, hconv, hmem⟩
    simp only [formatSearchResultsLines]
    split
    · exact List.mem_append_left _ (List.mem_cons_of_mem _ hm2)
    · exact List.mem_cons_of_mem _ hm2

/-- Concrete one-conversation search result for the C1 witness. -/
def exRes : SearchResult :=
  ⟨some [⟨some "X", some { emptyAttrs with uuid := some "Y" }⟩], none⟩

/-- C1 witness: the list formatter chain at a concrete conversation
with both a top-level id and an attributes uuid renders the top-level
id. -/
theorem c1_id_chains_witness :
    ((⟨some "X", some { emptyAttrs with uuid := some "Y" }⟩ : ConvSummary) ∈
      exRes.data.getD []) ∧
    "  ID: " ++ ((some "X" : Option String).getD
        (({ emptyAttrs with uuid := some "Y" } : Attrs).uuid.getD "unknown")) ∈
      formatSearchResultsLines exRes :=
  ⟨by decide,
   c1_id_chains.2 exRes ⟨some "X", some { emptyAttrs with uuid := some "Y" }⟩ (by decide)⟩

/-- Attributes whose confirmed intelligence mapping holds one
structured block with an empty value, so the mapping is non-empty but
renders no lines. -/
def exC7attrs : Attrs :=
  { emptyAttrs with
    confirmedExtractedIntelligence := some [("summary", .block (some "Summary") (some ""))] }

/-- Detail payload around `exC7attrs`. -/
def exC7 : ConvResult := { id := none, attributes := some exC7attrs, data := none }

/-- C7 counterexample: the chosen intelligence mapping is non-empty,
yet no Extracted Intelligence section is emitted — the section is
guarded by the rendered intelligence line list being non-empty, not by
the mapping being non-empty, so the claimed equivalence fails. -/
theorem c7_counterexample :
    chosenIntel (detailAttrs exC7) ≠ [] ∧
    "## Extracted Intelligence" ∉ formatConversationLines exC7 := by decide

/-- Detail payload whose intelligence mapping has one structured block
with title Summary and value Good call. -/
def exC7good : ConvResult :=
  { id := none,
    attributes := some { emptyAttrs with
      confirmedExtractedIntelligence :=
        some [("summary", .block (some "Summary") (some "Good call"))] },
    data := none }

/-- Detail payload with an empty intelligence mapping. -/
def exC7empty : ConvResult := { id := none, attributes := some emptyAttrs, data := none }

/-- C7 (amended): the Extracted Intelligence section is emitted
exactly when the chosen mapping (confirmed variant preferred, else raw
variant) renders at least one line, which requires the mapping to be
non-empty but also some entry to produce output; a structured block
with a non-empty value renders a sub-heading from its title (or the
key) followed by the value, and an empty mapping yields no section. -/
theorem c7_intel_section :
    (∀ r : ConvResult, intelLines (chosenIntel (detailAttrs r)) ≠ [] →
      "## Extracted Intelligence" ∈ formatConversationLines r) ∧
    formatConversationLines exC7good =
      ["# Untitled", "", "**ID:** unknown", "**Date:** ", "**Video Status:** Unknown", "",
       "## Participants", "", "## Extracted Intelligence", "### Summary", "Good call", "",
       "", "## Transcript", "", "*No transcript available*"] ∧
    "## Extracted Intelligence" ∉ formatConversationLines exC7empty := by
  refine ⟨?_, by decide, by decide⟩
  intro r h
  simp only [formatConversationLines]
  rw [if_neg h]
  simp

/-- C7 witness: the section-emission statement at the Summary payload,
whose rendered intelligence line list is non-empty. -/
theorem c7_intel_section_witness :
    intelLines (chosenIntel (detailAttrs exC7good)) ≠ [] ∧
    "## Extracted Intelligence" ∈ formatConversationLines exC7good :=
  ⟨by decide, c7_intel_section.1 exC7good (by decide)⟩

end AttentionMCP
